import Mathlib

/-!
Shallow embedding of `week2/9day/force_key_rotation.py`: a guarded IAM
access-key rotation script.  Pure helpers (`redacted_tail`, `pick_old_key`)
are translated directly; the effectful `main` is embedded as a function from
the parsed arguments and a `World` of collaborator responses to a terminal
outcome carrying the ordered list of remote calls and of evidence writes.
-/

namespace ForceKeyRotation

/-- Value stored in an argparse Namespace attribute. -/
inductive PyVal where
  | vstr (s : String)
  | vint (n : Int)
  | vbool (b : Bool)
deriving DecidableEq

/-- Translation of `redacted_tail` (source lines 65-73): keep only the last
`keep_last` characters of the string, masking the rest with asterisks;
`None` passes through unchanged. -/
def redacted_tail (value : Option String) (keep_last : Int := 4) : Option String :=
  match value with
  | none => none
  | some v =>
    if keep_last ≤ 0 then
      some (String.mk (List.replicate v.length '*'))
    else if (v.length : Int) ≤ keep_last then
      some (String.mk (List.replicate v.length '*'))
    else
      some (String.mk (List.replicate (v.length - keep_last.toNat) '*'
        ++ v.data.drop (v.length - keep_last.toNat)))

/-- Translation of `iso` (source lines 82-86): render a timestamp as a string
(creation timestamps are modelled as naturals). -/
def iso (dt : Nat) : String := toString dt

/-- One element of the `AccessKeyMetadata` list returned by
`iam.list_access_keys`. -/
structure KeyMeta where
  accessKeyId : String
  status : String
  createDate : Nat
deriving DecidableEq

/-- Strict comparison on the sort key used by `sorted(keys, key=lambda k:
k["CreateDate"])`. -/
def ltKey (a b : KeyMeta) : Bool := a.createDate < b.createDate

/-- Insertion step of a stable sort: an element is placed before the first
already-sorted element that is not strictly smaller, so earlier list elements
stay first on ties, as Python's stable `sorted` guarantees. -/
def insertStable (x : KeyMeta) : List KeyMeta → List KeyMeta
  | [] => [x]
  | y :: ys => if ltKey y x then y :: insertStable x ys else x :: y :: ys

/-- Stable sort by `CreateDate`, modelling Python's
`sorted(keys, key=lambda k: k["CreateDate"])`. -/
def sortedByCreateDate : List KeyMeta → List KeyMeta
  | [] => []
  | x :: xs => insertStable x (sortedByCreateDate xs)

/-- Translation of `pick_old_key` (source lines 103-111): `None` on an empty
list, otherwise the head of the stable sort by `CreateDate`. -/
def pick_old_key (keys : List KeyMeta) : Option KeyMeta :=
  if keys.isEmpty then none
  else (sortedByCreateDate keys).head?

/-- First element attaining the minimal `CreateDate`, scanning left to right
with `x` as the current best. -/
def firstMin (x : KeyMeta) : List KeyMeta → KeyMeta
  | [] => x
  | y :: ys => if ltKey y x then firstMin y ys else firstMin x ys

/-- Parsed command-line arguments (the nine argparse destinations). -/
structure Args where
  user_name : String
  secret_id : String
  region : String
  evidence_dir : String
  max_keys : Int
  dry_run : Bool
  deactivate_old : Bool
  delete_old : Bool
  confirm_delete : String
deriving DecidableEq

/-- Seventy-two zero characters. -/
def zeros72 : String := String.mk (List.replicate 72 '0')

/-- Attribute name actually accessed on source line 129: the identifier
`confirm_delete` with 72 zero characters spliced in after the `c`. -/
def mangledConfirmAttr : String := "c" ++ zeros72 ++ "onfirm_delete"

/-- Attribute lookup on the argparse Namespace produced by `parse_args`
(exactly the nine registered destinations; anything else raises
AttributeError in Python, modelled as `none`). -/
def namespaceLookup (args : Args) (attr : String) : Option PyVal :=
  if attr = "user_name" then some (PyVal.vstr args.user_name)
  else if attr = "secret_id" then some (PyVal.vstr args.secret_id)
  else if attr = "region" then some (PyVal.vstr args.region)
  else if attr = "evidence_dir" then some (PyVal.vstr args.evidence_dir)
  else if attr = "max_keys" then some (PyVal.vint args.max_keys)
  else if attr = "dry_run" then some (PyVal.vbool args.dry_run)
  else if attr = "deactivate_old" then some (PyVal.vbool args.deactivate_old)
  else if attr = "delete_old" then some (PyVal.vbool args.delete_old)
  else if attr = "confirm_delete" then some (PyVal.vstr args.confirm_delete)
  else none

/-- Caller identity as reported by `sts.get_caller_identity`. -/
structure CallerIdent where
  account : Option String
  arn : Option String
  userId : Option String
deriving DecidableEq

/-- Response of `secretsmanager.describe_secret`. -/
structure SecretDesc where
  name : Option String
  arn : Option String
  deletedDate : Option Nat
  kmsKeyId : Option String
deriving DecidableEq

/-- The `AccessKey` object returned by `iam.create_access_key`. -/
structure CreatedKey where
  accessKeyId : String
  secretAccessKey : String
  createDate : Nat
  status : Option String
deriving DecidableEq

/-- Response of `secretsmanager.put_secret_value`. -/
structure PutResp where
  arn : Option String
  versionId : Option String
  versionStages : List String
deriving DecidableEq

/-- Clock readings and collaborator responses for a single run; an
`Except.error` is a botocore `ClientError` carrying its message. -/
structure World where
  startedAt : String
  finishedAt : String
  rotatedAt : String
  runIdTime : String
  sts : Except String CallerIdent
  listKeys : Except String (List KeyMeta)
  describeSecret : Except String SecretDesc
  createKey : Except String CreatedKey
  putSecret : Except String PutResp
  rollbackDelete : Except String Unit
  updateOldKey : Except String Unit
  deleteOldKey : Except String Unit

/-- Sanitized echo of the request in the evidence skeleton. -/
structure Inputs where
  user_name : String
  secret_id : String
  region : String
  max_keys : Int
  dry_run : Bool
  deactivate_old : Bool
  delete_old : Bool
deriving DecidableEq

/-- One entry of `evidence.precheck.existing_keys`. -/
structure KeyEntryEv where
  accessKeyId : String
  status : String
  createDate : String
deriving DecidableEq

/-- The `evidence.precheck.secret_describe` sub-record. -/
structure SecretDescribeEv where
  name : Option String
  arn : Option String
  deletedDate : Option String
  kmsKeyId : Option String
deriving DecidableEq

/-- The `evidence.precheck.plan` sub-record. -/
structure PlanEv where
  will_create_new_key : Bool
  will_put_secret_value : Bool
  old_key_access_key_id : Option String
  will_deactivate_old : Bool
  will_delete_old : Bool
deriving DecidableEq

/-- The `evidence.precheck` record; fields start absent. -/
structure PrecheckEv where
  existing_keys_count : Option Nat := none
  existing_keys : Option (List KeyEntryEv) := none
  old_key_access_key_id : Option (Option String) := none
  secret_describe : Option SecretDescribeEv := none
  plan : Option PlanEv := none
deriving DecidableEq

/-- The `evidence.actions.iam_create_access_key` record. -/
structure CreateKeyActionEv where
  new_access_key_id : String
  new_secret_access_key_redacted : Option String
  create_date : String
  status : String
deriving DecidableEq

/-- The `evidence.actions.secretsmanager_put_secret_value` record. -/
structure PutSecretActionEv where
  secret_arn : Option String
  version_id : Option String
  version_stages : List String
deriving DecidableEq

/-- The `evidence.actions.rollback_delete_new_key` record. -/
structure RollbackActionEv where
  ok : Bool
  access_key_id : String
  error : Option String
deriving DecidableEq

/-- Record for the two optional old-key actions in `evidence.actions`. -/
structure OldKeyActionEv where
  ok : Bool
  old_access_key_id : Option String
deriving DecidableEq

/-- The `evidence.actions` record; entries start absent. -/
structure ActionsEv where
  iam_create_access_key : Option CreateKeyActionEv := none
  secretsmanager_put_secret_value : Option PutSecretActionEv := none
  rollback_delete_new_key : Option RollbackActionEv := none
  iam_update_access_key_inactive : Option OldKeyActionEv := none
  iam_delete_access_key_old : Option OldKeyActionEv := none
deriving DecidableEq

/-- The `evidence.result` record; fields start absent. -/
structure ResultEv where
  status : Option String := none
  message : Option String := none
  new_access_key_id : Option String := none
  old_access_key_id : Option (Option String) := none
deriving DecidableEq

/-- One entry of `evidence.errors`. -/
structure ErrEntry where
  step : String
  error : String
deriving DecidableEq

/-- The full evidence record written by `write_json`. -/
structure Evidence where
  started_at : String
  run_id : String
  inputs : Inputs
  caller_identity : Option CallerIdent
  precheck : PrecheckEv
  actions : ActionsEv
  result : ResultEv
  errors : List ErrEntry
  finished_at : Option String
deriving DecidableEq

/-- Payload published by `put_secret_value`; the raw secret travels only
here and to Secrets Manager, never into evidence. -/
structure SecretPayload where
  schema_version : Int
  user_name : String
  access_key_id : String
  secret_access_key : String
  rotated_at : String
  rotated_from_access_key_id : Option String
deriving DecidableEq

/-- One remote collaborator invocation, in issue order. -/
inductive Call where
  | stsGetCallerIdentity
  | iamListAccessKeys (userName : String)
  | smDescribeSecret (secretId : String)
  | iamCreateAccessKey (userName : String)
  | smPutSecretValue (secretId : String) (payload : SecretPayload)
  | iamDeleteAccessKey (userName : String) (accessKeyId : String)
  | iamUpdateAccessKey (userName : String) (accessKeyId : String) (status : String)
deriving DecidableEq

/-- Whether a collaborator call mutates remote state. -/
def Call.isMutating : Call → Bool
  | .iamCreateAccessKey _ => true
  | .smPutSecretValue _ _ => true
  | .iamDeleteAccessKey _ _ => true
  | .iamUpdateAccessKey _ _ _ => true
  | _ => false

/-- Ordered trace of one invocation: remote calls issued and `write_json`
events (path plus payload). -/
structure RunTrace where
  calls : List Call
  writes : List (String × Evidence)
deriving DecidableEq

/-- Terminal outcome of the process: a clean `return code` from `main`, or an
uncaught Python exception. -/
inductive MainOutcome where
  | crashed (exc : String) (trace : RunTrace)
  | ret (code : Int) (trace : RunTrace)
deriving DecidableEq

/-- Python truthiness of an optional string: `None` and `""` are falsy. -/
def truthyStr : Option String → Bool
  | none => false
  | some s => !s.isEmpty

/-- Evidence output path (source lines 173-175):
`evidence_dir/run_<run_id>/result.json`. -/
def out_path_of (evidence_dir run_id : String) : String :=
  evidence_dir ++ "/run_" ++ run_id ++ "/result.json"

/-- Conversion of one key's metadata to its evidence entry (source lines
197-204). -/
def toKeyEntry (k : KeyMeta) : KeyEntryEv :=
  { accessKeyId := k.accessKeyId, status := k.status, createDate := iso k.createDate }

/-- Body of `main` after the confirm-delete gate (source lines 133-362):
build the evidence skeleton, verify caller identity, list keys, apply the
guardrail, describe the secret, record the plan, stop on dry-run, create the
key, publish the secret (rolling back the new key on publish failure), then
optionally retire the old key.  Every terminal path appends its final
timestamp and performs exactly one `write_json`. -/
def mainBody (args : Args) (w : World) : MainOutcome :=
  let run_id := w.runIdTime
  let ev0 : Evidence :=
    { started_at := w.startedAt,
      run_id := run_id,
      inputs :=
        { user_name := args.user_name, secret_id := args.secret_id,
          region := args.region, max_keys := args.max_keys,
          dry_run := args.dry_run, deactivate_old := args.deactivate_old,
          delete_old := args.delete_old },
      caller_identity := none,
      precheck := {},
      actions := {},
      result := {},
      errors := [],
      finished_at := none }
  let out_path := out_path_of args.evidence_dir run_id
  match w.sts with
  | .error e =>
    let ev1 := { ev0 with
      errors := ev0.errors ++ [ErrEntry.mk "sts.get_caller_identity" e],
      finished_at := some w.finishedAt }
    .ret 1 ⟨[.stsGetCallerIdentity], [(out_path, ev1)]⟩
  | .ok ident =>
    let ev1 := { ev0 with caller_identity := some ident }
    match w.listKeys with
    | .error e =>
      let ev2 := { ev1 with
        errors := ev1.errors ++ [ErrEntry.mk "iam.list_access_keys" e],
        finished_at := some w.finishedAt }
      .ret 1 ⟨[.stsGetCallerIdentity, .iamListAccessKeys args.user_name], [(out_path, ev2)]⟩
    | .ok existing_keys =>
      let ev2 := { ev1 with precheck := { ev1.precheck with
        existing_keys_count := some existing_keys.length,
        existing_keys := some (existing_keys.map toKeyEntry) } }
      if (existing_keys.length : Int) ≥ args.max_keys then
        let ev3 := { ev2 with
          result := { ev2.result with
            status := some "ABORT_TOO_MANY_KEYS",
            message := some ("User has " ++ toString existing_keys.length ++
              " keys; max allowed is " ++ toString args.max_keys ++ ".") },
          finished_at := some w.finishedAt }
        .ret 3 ⟨[.stsGetCallerIdentity, .iamListAccessKeys args.user_name], [(out_path, ev3)]⟩
      else
        let old_key := pick_old_key existing_keys
        let old_key_id := old_key.map KeyMeta.accessKeyId
        let ev3 := { ev2 with precheck := { ev2.precheck with
          old_key_access_key_id := some old_key_id } }
        match w.describeSecret with
        | .error e =>
          let ev4 := { ev3 with
            errors := ev3.errors ++ [ErrEntry.mk "secretsmanager.describe_secret" e],
            result := { ev3.result with status := some "ABORT_SECRET_NOT_DESCRIBABLE" },
            finished_at := some w.finishedAt }
          .ret 4 ⟨[.stsGetCallerIdentity, .iamListAccessKeys args.user_name,
            .smDescribeSecret args.secret_id], [(out_path, ev4)]⟩
        | .ok ds =>
          let ev4 := { ev3 with precheck := { ev3.precheck with
            secret_describe := some (
              { name := ds.name, arn := ds.arn,
                deletedDate := ds.deletedDate.map iso, kmsKeyId := ds.kmsKeyId }) } }
          let planEv : PlanEv :=
            { will_create_new_key := true, will_put_secret_value := true,
              old_key_access_key_id := old_key_id,
              will_deactivate_old := truthyStr old_key_id && args.deactivate_old,
              will_delete_old := truthyStr old_key_id && args.delete_old }
          let ev5 := { ev4 with precheck := { ev4.precheck with plan := some planEv } }
          let baseCalls := [Call.stsGetCallerIdentity, .iamListAccessKeys args.user_name,
            .smDescribeSecret args.secret_id]
          if args.dry_run then
            let ev6 := { ev5 with
              result := { ev5.result with status := some "DRY_RUN_OK" },
              finished_at := some w.finishedAt }
            .ret 0 ⟨baseCalls, [(out_path, ev6)]⟩
          else
            match w.createKey with
            | .error e =>
              let ev6 := { ev5 with
                errors := ev5.errors ++ [ErrEntry.mk "iam.create_access_key" e],
                result := { ev5.result with status := some "FAILED_CREATE_ACCESS_KEY" },
                finished_at := some w.finishedAt }
              .ret 5 ⟨baseCalls ++ [.iamCreateAccessKey args.user_name], [(out_path, ev6)]⟩
            | .ok ck =>
              let ev6 := { ev5 with actions := { ev5.actions with
                iam_create_access_key := some (
                  { new_access_key_id := ck.accessKeyId,
                    new_secret_access_key_redacted := redacted_tail (some ck.secretAccessKey),
                    create_date := iso ck.createDate,
                    status := ck.status.getD "Active" }) } }
              let payload : SecretPayload :=
                { schema_version := 1, user_name := args.user_name,
                  access_key_id := ck.accessKeyId,
                  secret_access_key := ck.secretAccessKey,
                  rotated_at := w.rotatedAt,
                  rotated_from_access_key_id := old_key_id }
              let calls1 := baseCalls ++ [Call.iamCreateAccessKey args.user_name,
                .smPutSecretValue args.secret_id payload]
              match w.putSecret with
              | .error e =>
                let ev7 := { ev6 with
                  errors := ev6.errors ++ [ErrEntry.mk "secretsmanager.put_secret_value" e],
                  result := { ev6.result with status := some "FAILED_PUT_SECRET_VALUE" } }
                match w.rollbackDelete with
                | .ok _ =>
                  let ev8 := { ev7 with
                    actions := { ev7.actions with rollback_delete_new_key := some (
                      { ok := true, access_key_id := ck.accessKeyId, error := none }) },
                    finished_at := some w.finishedAt }
                  .ret 6 ⟨calls1 ++ [.iamDeleteAccessKey args.user_name ck.accessKeyId],
                    [(out_path, ev8)]⟩
                | .error e2 =>
                  let ev8 := { ev7 with
                    actions := { ev7.actions with rollback_delete_new_key := some (
                      { ok := false, access_key_id := ck.accessKeyId, error := some e2 }) },
                    finished_at := some w.finishedAt }
                  .ret 6 ⟨calls1 ++ [.iamDeleteAccessKey args.user_name ck.accessKeyId],
                    [(out_path, ev8)]⟩
              | .ok put =>
                let ev7 := { ev6 with actions := { ev6.actions with
                  secretsmanager_put_secret_value := some (
                    { secret_arn := put.arn, version_id := put.versionId,
                      version_stages := put.versionStages }) } }
                let deact := truthyStr old_key_id && args.deactivate_old
                let ev8 :=
                  if deact then
                    match w.updateOldKey with
                    | .ok _ => { ev7 with actions := { ev7.actions with
                        iam_update_access_key_inactive := some (
                          { ok := true, old_access_key_id := old_key_id }) } }
                    | .error e => { ev7 with
                        errors := ev7.errors ++ [ErrEntry.mk "iam.update_access_key(Inactive)" e],
                        actions := { ev7.actions with
                          iam_update_access_key_inactive := some (
                            { ok := false, old_access_key_id := old_key_id }) } }
                  else ev7
                let calls2 := calls1 ++ (if deact then
                  [Call.iamUpdateAccessKey args.user_name (old_key_id.getD "") "Inactive"]
                  else [])
                let delOld := truthyStr old_key_id && args.delete_old
                let ev9 :=
                  if delOld then
                    match w.deleteOldKey with
                    | .ok _ => { ev8 with actions := { ev8.actions with
                        iam_delete_access_key_old := some (
                          { ok := true, old_access_key_id := old_key_id }) } }
                    | .error e => { ev8 with
                        errors := ev8.errors ++ [ErrEntry.mk "iam.delete_access_key(old)" e],
                        actions := { ev8.actions with
                          iam_delete_access_key_old := some (
                            { ok := false, old_access_key_id := old_key_id }) } }
                  else ev8
                let calls3 := calls2 ++ (if delOld then
                  [Call.iamDeleteAccessKey args.user_name (old_key_id.getD "")] else [])
                let evFin := { ev9 with
                  result := { ev9.result with
                    status := some "OK",
                    new_access_key_id := some ck.accessKeyId,
                    old_access_key_id := some old_key_id },
                  finished_at := some w.finishedAt }
                .ret 0 ⟨calls3, [(out_path, evFin)]⟩

/-- Translation of `main` (source lines 114-362).  Source line 129 evaluates
`args.delete_old and args.c0…0onfirm_delete != "DELETE"` where the second
attribute name is the mangled `mangledConfirmAttr`; when `delete_old` is
truthy the Namespace lookup fails and an uncaught AttributeError terminates
the process before any client is built, so the `return 2` refusal is
unreachable. -/
def main (args : Args) (w : World) : MainOutcome :=
  if args.delete_old then
    match namespaceLookup args mangledConfirmAttr with
    | none => .crashed "AttributeError" ⟨[], []⟩
    | some v =>
      if v ≠ PyVal.vstr "DELETE" then .ret 2 ⟨[], []⟩
      else mainBody args w
  else mainBody args w

/-- Trace of an outcome. -/
def MainOutcome.trace : MainOutcome → RunTrace
  | .crashed _ t => t
  | .ret _ t => t

/-- Evidence writes performed by the run, in order. -/
def MainOutcome.evWrites (o : MainOutcome) : List (String × Evidence) :=
  o.trace.writes

/-- Remote collaborator calls issued by the run, in order. -/
def MainOutcome.callsOf (o : MainOutcome) : List Call :=
  o.trace.calls

/-- Return code of `main`, or `none` when an exception escaped. -/
def MainOutcome.retCode : MainOutcome → Option Int
  | .crashed _ _ => none
  | .ret c _ => some c

/-- The evidence record written by the run, if any. -/
def MainOutcome.evidence (o : MainOutcome) : Option Evidence :=
  (o.evWrites.head?).map Prod.snd

/-- The terminal `result.status` recorded in evidence, if any. -/
def MainOutcome.statusOf (o : MainOutcome) : Option String :=
  match o.evidence with
  | none => none
  | some e => e.result.status

/-- A world where the generated SecretAccessKey has been replaced (all else
unchanged); used to state that evidence depends on the secret only through
its redaction. -/
def setSecret (w : World) (s : String) : World :=
  { w with createKey :=
      match w.createKey with
      | .ok ck => .ok { ck with secretAccessKey := s }
      | .error e => .error e }

/-! Sample arguments and worlds used by the closed witness theorems. -/

/-- A caller identity sample. -/
def sampleIdent : CallerIdent :=
  { account := some "123456789012",
    arn := some "arn:aws:iam::123456789012:user/ops",
    userId := some "AIDAEXAMPLE" }

/-- A describe-secret response sample. -/
def sampleDesc : SecretDesc :=
  { name := some "lab/iam/rotation-lab-user",
    arn := some "arn:aws:secretsmanager:secret", deletedDate := none,
    kmsKeyId := none }

/-- A created-key sample. -/
def sampleCreated : CreatedKey :=
  { accessKeyId := "AKIANEW1", secretAccessKey := "GENERATEDSECRETTAIL",
    createDate := 200, status := some "Active" }

/-- A put-secret-value response sample. -/
def samplePut : PutResp :=
  { arn := some "arn:aws:secretsmanager:secret", versionId := some "v1",
    versionStages := ["AWSCURRENT"] }

/-- An existing key sample. -/
def sampleOldKey : KeyMeta :=
  { accessKeyId := "AKIAOLD1", status := "Active", createDate := 100 }

/-- A second existing key sample. -/
def sampleOldKey2 : KeyMeta :=
  { accessKeyId := "AKIAOLD2", status := "Active", createDate := 150 }

/-- Default arguments: rotate with no retirement, not a dry run. -/
def sampleArgs : Args :=
  { user_name := "rotation-lab-user", secret_id := "lab/iam/rotation-lab-user",
    region := "us-east-1", evidence_dir := "week2/day9/evidence/rotation",
    max_keys := 2, dry_run := false, deactivate_old := false,
    delete_old := false, confirm_delete := "" }

/-- A world in which every collaborator call succeeds and one key exists. -/
def sampleWorldOk : World :=
  { startedAt := "2025-01-01T00:00:00+00:00",
    finishedAt := "2025-01-01T00:00:05+00:00",
    rotatedAt := "2025-01-01T00:00:03+00:00",
    runIdTime := "20250101T000000Z",
    sts := .ok sampleIdent,
    listKeys := .ok [sampleOldKey],
    describeSecret := .ok sampleDesc,
    createKey := .ok sampleCreated,
    putSecret := .ok samplePut,
    rollbackDelete := .ok (),
    updateOldKey := .ok (),
    deleteOldKey := .ok () }

/-! Facts about the oldest-key selection. -/

/-- The running best of `firstMin` never increases the creation timestamp. -/
theorem firstMin_createDate_le (x : KeyMeta) (ys : List KeyMeta) :
    (firstMin x ys).createDate ≤ x.createDate := by
  induction ys generalizing x with
  | nil => simp [firstMin]
  | cons y ys ih =>
    by_cases h : ltKey y x
    · have hy : y.createDate < x.createDate := by simpa [ltKey] using h
      simp only [firstMin, h, if_true]
      exact le_trans (ih y) (le_of_lt hy)
    · simp only [firstMin, h, if_false]
      exact ih x

/-- The selected element is the seed or a member of the scanned list. -/
theorem firstMin_mem (x : KeyMeta) (ys : List KeyMeta) :
    firstMin x ys = x ∨ firstMin x ys ∈ ys := by
  induction ys generalizing x with
  | nil => left; simp [firstMin]
  | cons y ys ih =>
    by_cases h : ltKey y x
    · simp only [firstMin, h, if_true]
      rcases ih y with h1 | h1
      · right; simp [h1]
      · right; simp [h1]
    · simp only [firstMin, h, if_false]
      rcases ih x with h1 | h1
      · left; exact h1
      · right; simp [h1]

/-- The selected element attains the minimal creation timestamp. -/
theorem firstMin_le_all (x : KeyMeta) (ys : List KeyMeta) :
    ∀ k ∈ x :: ys, (firstMin x ys).createDate ≤ k.createDate := by
  induction ys generalizing x with
  | nil =>
    intro k hk
    simp only [List.mem_singleton] at hk
    subst hk
    simp [firstMin]
  | cons y ys ih =>
    intro k hk
    rcases List.mem_cons.mp hk with rfl | hk'
    · by_cases h : ltKey y k
      · have hy : y.createDate < k.createDate := by simpa [ltKey] using h
        simp only [firstMin, h, if_true]
        exact le_trans (firstMin_createDate_le y ys) (le_of_lt hy)
      · simp only [firstMin, h, if_false]
        exact firstMin_createDate_le k ys
    · rcases List.mem_cons.mp hk' with rfl | hk''
      · by_cases h : ltKey k x
        · simp only [firstMin, h, if_true]
          exact firstMin_createDate_le k ys
        · have hxy : x.createDate ≤ k.createDate := by
            simp only [ltKey, decide_eq_true_eq] at h
            omega
          simp only [firstMin, h, if_false]
          exact le_trans (firstMin_createDate_le x ys) hxy
      · by_cases h : ltKey y x
        · simp only [firstMin, h, if_true]
          exact ih y k (List.mem_cons_of_mem y hk'')
        · simp only [firstMin, h, if_false]
          exact ih x k (List.mem_cons_of_mem x hk'')

/-- Replacing the seed by a not-strictly-smaller one leaves the scan's
result expressible through the original scan. -/
theorem firstMin_shift (ys : List KeyMeta) (x x' : KeyMeta)
    (hxx : ltKey x' x = false) :
    firstMin x ys = if ltKey (firstMin x' ys) x then firstMin x' ys else x := by
  induction ys generalizing x x' with
  | nil => simp [firstMin, hxx]
  | cons y ys ih =>
    by_cases h1 : ltKey y x
    · have h2 : ltKey y x' = true := by
        simp only [ltKey, decide_eq_true_eq, decide_eq_false_iff_not] at h1 hxx ⊢
        omega
      simp only [firstMin, h1, h2, if_true]
      have hm : (firstMin y ys).createDate < x.createDate :=
        lt_of_le_of_lt (firstMin_createDate_le y ys) (by simpa [ltKey] using h1)
      have hmx : ltKey (firstMin y ys) x = true := by
        simp only [ltKey, decide_eq_true_eq]
        exact hm
      rw [if_pos hmx]
    · by_cases h2 : ltKey y x'
      · simp only [firstMin, h1, h2, if_true, if_false]
        exact ih x y (by
          simp only [ltKey, decide_eq_true_eq, decide_eq_false_iff_not] at h1 ⊢
          omega)
      · simp only [firstMin, h1, h2, if_false]
        exact ih x x' hxx

/-- Head of a stable insertion. -/
theorem insertStable_head (x : KeyMeta) (s : List KeyMeta) :
    (insertStable x s).head? =
      some (match s with
        | [] => x
        | y :: _ => if ltKey y x then y else x) := by
  cases s with
  | nil => rfl
  | cons y ys =>
    by_cases h : ltKey y x
    · simp [insertStable, h]
    · simp [insertStable, h]

/-- Head of the stable sort is the first minimum of the input list. -/
theorem sortedByCreateDate_head (l : List KeyMeta) :
    (sortedByCreateDate l).head? =
      match l with
      | [] => none
      | x :: xs => some (firstMin x xs) := by
  induction l with
  | nil => rfl
  | cons x xs ih =>
    cases xs with
    | nil => rfl
    | cons x' xs' =>
      cases hs : sortedByCreateDate (x' :: xs') with
      | nil => rw [hs] at ih; simp at ih
      | cons m rest =>
        rw [hs] at ih
        simp only [List.head?_cons, Option.some.injEq] at ih
        show (insertStable x (sortedByCreateDate (x' :: xs'))).head? = _
        rw [hs, insertStable_head]
        subst ih
        simp only [firstMin]
        by_cases hx : ltKey x' x
        · have hlt : (firstMin x' xs').createDate < x.createDate :=
            lt_of_le_of_lt (firstMin_createDate_le x' xs') (by simpa [ltKey] using hx)
          have hmx : ltKey (firstMin x' xs') x = true := by
            simp only [ltKey, decide_eq_true_eq]
            exact hlt
          rw [if_pos hmx, if_pos hx]
        · rw [if_neg hx, firstMin_shift xs' x x' (by simpa using hx)]

/-- On a non-empty list, `pick_old_key` returns the first minimum. -/
theorem pick_old_key_eq_firstMin (x : KeyMeta) (xs : List KeyMeta) :
    pick_old_key (x :: xs) = some (firstMin x xs) := by
  simp [pick_old_key, sortedByCreateDate_head]

/-! Facts about the run trace. -/

/-- Every terminal path of the body performs exactly one `write_json`, to
the run-derived output path. -/
theorem mainBody_writes_paths (args : Args) (w : World) :
    (mainBody args w).evWrites.map Prod.fst =
      [out_path_of args.evidence_dir w.runIdTime] := by
  unfold mainBody
  dsimp only
  repeat' split
  all_goals rfl

/-- Every terminal path of the body writes exactly one evidence record. -/
theorem mainBody_writes_length (args : Args) (w : World) :
    (mainBody args w).evWrites.length = 1 := by
  have h := congrArg List.length (mainBody_writes_paths args w)
  simpa using h

/-- Output paths sharing a base directory determine the run timestamp. -/
theorem out_path_of_inj (d t u : String)
    (h : out_path_of d t = out_path_of d u) : t = u := by
  unfold out_path_of at h
  have h2 := congrArg String.data h
  simp only [String.data_append, List.append_assoc] at h2
  have h3 := List.append_cancel_left (List.append_cancel_left h2)
  have h4 := List.append_cancel_right h3
  cases t with
  | mk td =>
    cases u with
    | mk ud => exact congrArg String.mk h4

/-! Claim theorems. -/

/-- C10: `redacted_tail` is total and length-preserving at its edges: a
`None` input returns `None`; every string no longer than `keep_last` is
fully masked; and for every string input the output has exactly the length
of the input. -/
theorem redacted_tail_edge_behavior :
    (∀ k : Int, redacted_tail none k = none) ∧
    (∀ (s : String) (k : Int), (s.length : Int) ≤ k →
      redacted_tail (some s) k = some (String.mk (List.replicate s.length '*'))) ∧
    (∀ (s : String) (k : Int),
      (redacted_tail (some s) k).map String.length = some s.length) := by
  refine ⟨fun k => rfl, ?_, ?_⟩
  · intro s k hk
    unfold redacted_tail
    dsimp only
    by_cases h0 : k ≤ 0
    · rw [if_pos h0]
    · rw [if_neg h0, if_pos hk]
  · intro s k
    have hmk : ∀ l : List Char, (String.mk l).length = l.length := fun l => rfl
    have hsd : s.data.length = s.length := rfl
    unfold redacted_tail
    dsimp only
    by_cases h0 : k ≤ 0
    · rw [if_pos h0]
      simp only [Option.map_some']
      rw [hmk, List.length_replicate]
    · rw [if_neg h0]
      by_cases h1 : (s.length : Int) ≤ k
      · rw [if_pos h1]
        simp only [Option.map_some']
        rw [hmk, List.length_replicate]
      · rw [if_neg h1]
        simp only [Option.map_some']
        rw [hmk]
        simp only [List.length_append, List.length_replicate, List.length_drop]
        congr 1
        omega

/-- Witness for C10 at the concrete inputs `none`, `"AB"` and `"ABCDEFGH"`
with the default `keep_last = 4`. -/
theorem redacted_tail_edge_behavior_witness :
    redacted_tail none 4 = none ∧
    (((("AB" : String).length : Int) ≤ 4 ∧
      redacted_tail (some "AB") 4 =
        some (String.mk (List.replicate ("AB" : String).length '*'))) ∧
    (redacted_tail (some "ABCDEFGH") 4).map String.length =
      some ("ABCDEFGH" : String).length) :=
  ⟨redacted_tail_edge_behavior.1 4,
   ⟨by decide, redacted_tail_edge_behavior.2.1 "AB" 4 (by decide)⟩,
   redacted_tail_edge_behavior.2.2 "ABCDEFGH" 4⟩

/-- C6 (amended): on a non-empty credential list the selected old key is
the first, in list order, of those attaining the minimal creation
timestamp; Python's sort is stable, so a timestamp tie is broken by list
position, not by the lexicographic order of identifiers. -/
theorem pick_old_key_selects_first_minimum (x : KeyMeta) (xs : List KeyMeta) :
    pick_old_key (x :: xs) = some (firstMin x xs) ∧
    firstMin x xs ∈ x :: xs ∧
    ∀ k ∈ x :: xs, (firstMin x xs).createDate ≤ k.createDate := by
  refine ⟨pick_old_key_eq_firstMin x xs, ?_, firstMin_le_all x xs⟩
  rcases firstMin_mem x xs with h | h
  · rw [h]; exact List.mem_cons_self x xs
  · exact List.mem_cons_of_mem x h

/-- Witness for the amended C6 statement on a concrete two-key list. -/
theorem pick_old_key_selects_first_minimum_witness :
    pick_old_key [sampleOldKey2, sampleOldKey] =
      some (firstMin sampleOldKey2 [sampleOldKey]) ∧
    firstMin sampleOldKey2 [sampleOldKey] ∈ [sampleOldKey2, sampleOldKey] ∧
    (firstMin sampleOldKey2 [sampleOldKey]).createDate ≤ sampleOldKey2.createDate :=
  ⟨(pick_old_key_selects_first_minimum sampleOldKey2 [sampleOldKey]).1,
   (pick_old_key_selects_first_minimum sampleOldKey2 [sampleOldKey]).2.1,
   (pick_old_key_selects_first_minimum sampleOldKey2 [sampleOldKey]).2.2
     sampleOldKey2 (by decide)⟩

/-- C6 counterexample: with two credentials sharing the minimal timestamp
the code selects the first in list order even though its identifier is the
lexicographically larger one, and reversing the list changes the selection,
so selection is not determined by the set of credentials. -/
theorem pick_old_key_tie_not_by_identifier :
    pick_old_key [⟨"KEYB", "Active", 5⟩, ⟨"KEYA", "Active", 5⟩] =
      some ⟨"KEYB", "Active", 5⟩ ∧
    pick_old_key [⟨"KEYA", "Active", 5⟩, ⟨"KEYB", "Active", 5⟩] =
      some ⟨"KEYA", "Active", 5⟩ ∧
    ("KEYA" : String).data < ("KEYB" : String).data := by
  refine ⟨rfl, rfl, by decide⟩

/-- Arguments requesting delete-old retirement with an empty token. -/
def argsDeleteNoToken : Args :=
  { sampleArgs with delete_old := true, confirm_delete := "" }

/-- C2 (code bug): a delete-old invocation never reaches the clean
`return 2` usage refusal.  Line 129 reads a mangled attribute name, so the
Namespace lookup fails and an uncaught AttributeError ends the process —
still with zero collaborator calls, but with no exit code 2 and no refusal
message.  Evaluated at the failing input `--delete-old --confirm-delete ""`
against a fully healthy world. -/
theorem delete_old_crashes_before_usage_check :
    main argsDeleteNoToken sampleWorldOk = .crashed "AttributeError" ⟨[], []⟩ ∧
    (main argsDeleteNoToken sampleWorldOk).callsOf = [] ∧
    (main argsDeleteNoToken sampleWorldOk).retCode ≠ some 2 ∧
    namespaceLookup argsDeleteNoToken mangledConfirmAttr = none :=
  ⟨rfl, rfl, by decide, rfl⟩

/-- C9 counterexample: an invocation with the delete-old flag terminates
(via the line-129 AttributeError) without writing any evidence record, so
not every terminal path of a run produces exactly one record. -/
theorem delete_old_run_writes_no_evidence :
    (main argsDeleteNoToken sampleWorldOk).evWrites.length = 0 ∧
    (main argsDeleteNoToken sampleWorldOk).evWrites.length ≠ 1 :=
  ⟨rfl, by decide⟩

/-- C9 (amended): every run that passes the argument gate (delete-old not
set) writes exactly one evidence record on every terminal path, including
identity-verification failure and every abort; a delete-old invocation
instead crashes at the gate, before the evidence skeleton exists, and
writes none. -/
theorem every_gated_run_writes_one_record (args : Args) (w : World)
    (hd : args.delete_old = false) :
    (main args w).evWrites.length = 1 := by
  simp only [main, hd, Bool.false_eq_true, if_false]
  exact mainBody_writes_length args w

/-- Witness for the amended C9 statement at a concrete healthy run. -/
theorem every_gated_run_writes_one_record_witness :
    (main sampleArgs sampleWorldOk).evWrites.length = 1 :=
  every_gated_run_writes_one_record sampleArgs sampleWorldOk rfl

/-- Arguments for principal alice. -/
def argsAlice : Args := { sampleArgs with user_name := "alice" }

/-- Arguments for principal bob. -/
def argsBob : Args := { sampleArgs with user_name := "bob" }

/-- C7 counterexample: two runs for different principals started in the
same second write their evidence records to the identical path — the
principal name is not part of the evidence path. -/
theorem evidence_path_collision_same_instant :
    argsAlice.user_name ≠ argsBob.user_name ∧
    (main argsAlice sampleWorldOk).evWrites.map Prod.fst =
      (main argsBob sampleWorldOk).evWrites.map Prod.fst ∧
    (main argsAlice sampleWorldOk).evWrites.map Prod.fst =
      ["week2/day9/evidence/rotation/run_20250101T000000Z/result.json"] :=
  ⟨by decide, rfl, rfl⟩

/-- C7 (amended): the evidence path is derived only from the evidence
directory and the second-resolution run timestamp; the principal name is
not included, so with a common directory the written paths of two gated
runs are distinct exactly when their run timestamps differ. -/
theorem evidence_paths_distinct_iff_runid (args args2 : Args) (w w2 : World)
    (h1 : args.delete_old = false) (h2 : args2.delete_old = false)
    (hdir : args.evidence_dir = args2.evidence_dir)
    (ht : w.runIdTime ≠ w2.runIdTime) :
    ∀ p ∈ (main args w).evWrites.map Prod.fst,
      ∀ q ∈ (main args2 w2).evWrites.map Prod.fst, p ≠ q := by
  intro p hp q hq
  simp only [main, h1, h2, Bool.false_eq_true, if_false] at hp hq
  rw [mainBody_writes_paths] at hp hq
  simp only [List.mem_singleton] at hp hq
  subst hp
  subst hq
  intro hpq
  rw [hdir] at hpq
  exact ht (out_path_of_inj _ _ _ hpq)

/-- A world identical to the healthy sample but started one second later. -/
def sampleWorldLater : World := { sampleWorldOk with runIdTime := "20250101T000001Z" }

/-- Witness for the amended C7 statement: two concrete runs one second
apart write to distinct concrete paths. -/
theorem evidence_paths_distinct_iff_runid_witness :
    ("week2/day9/evidence/rotation/run_20250101T000000Z/result.json" : String) ≠
      "week2/day9/evidence/rotation/run_20250101T000001Z/result.json" :=
  evidence_paths_distinct_iff_runid sampleArgs sampleArgs sampleWorldOk sampleWorldLater
    rfl rfl rfl (by decide)
    "week2/day9/evidence/rotation/run_20250101T000000Z/result.json" (by decide)
    "week2/day9/evidence/rotation/run_20250101T000001Z/result.json" (by decide)

/-- C3: the guardrail aborts exactly when the existing-key count reaches
the ceiling: at or above it the run ends with exit code 3 and status
ABORT_TOO_MANY_KEYS having issued no mutating call, and below it the run
proceeds past the guardrail to the secret-describe step and never reports
the guardrail status. -/
theorem guardrail_abort_iff (args : Args) (w : World) (ident : CallerIdent)
    (ks : List KeyMeta) (hd : args.delete_old = false)
    (hs : w.sts = .ok ident) (hl : w.listKeys = .ok ks) :
    ((ks.length : Int) ≥ args.max_keys →
      (main args w).retCode = some 3 ∧
      (main args w).statusOf = some "ABORT_TOO_MANY_KEYS" ∧
      (main args w).callsOf.filter Call.isMutating = []) ∧
    ((ks.length : Int) < args.max_keys →
      (main args w).statusOf ≠ some "ABORT_TOO_MANY_KEYS" ∧
      Call.smDescribeSecret args.secret_id ∈ (main args w).callsOf) := by
  simp only [main, hd, Bool.false_eq_true, if_false]
  unfold mainBody
  rw [hs, hl]
  dsimp only
  constructor
  · intro hge
    rw [if_pos hge]
    exact ⟨rfl, rfl, rfl⟩
  · intro hlt
    have hng : ¬ ((ks.length : Int) ≥ args.max_keys) := not_le.mpr hlt
    rw [if_neg hng]
    constructor
    · repeat' split
      all_goals (simp only [MainOutcome.statusOf, MainOutcome.evidence,
        MainOutcome.evWrites, MainOutcome.trace, List.head?_cons,
        Option.map_some']; decide)
    · repeat' split
      all_goals (dsimp only [MainOutcome.callsOf, MainOutcome.trace]; simp)

/-- A world where the principal already has two keys. -/
def worldTwoKeys : World :=
  { sampleWorldOk with listKeys := .ok [sampleOldKey, sampleOldKey2] }

/-- Witness for C3 at a concrete run with two existing keys and ceiling 2. -/
theorem guardrail_abort_iff_witness :
    (((([sampleOldKey, sampleOldKey2] : List KeyMeta).length : Int) ≥ sampleArgs.max_keys →
      (main sampleArgs worldTwoKeys).retCode = some 3 ∧
      (main sampleArgs worldTwoKeys).statusOf = some "ABORT_TOO_MANY_KEYS" ∧
      (main sampleArgs worldTwoKeys).callsOf.filter Call.isMutating = []) ∧
    ((([sampleOldKey, sampleOldKey2] : List KeyMeta).length : Int) < sampleArgs.max_keys →
      (main sampleArgs worldTwoKeys).statusOf ≠ some "ABORT_TOO_MANY_KEYS" ∧
      Call.smDescribeSecret sampleArgs.secret_id ∈ (main sampleArgs worldTwoKeys).callsOf)) :=
  guardrail_abort_iff sampleArgs worldTwoKeys sampleIdent [sampleOldKey, sampleOldKey2]
    rfl rfl rfl

/-- C4: when creation succeeds and publication fails the run ends with exit
code 6 and status FAILED_PUT_SECRET_VALUE whatever the rollback outcome;
exactly one compensating delete is issued for the just-created key id, and
the rollback outcome, success or failure, is recorded in the evidence
actions. -/
theorem rollback_after_publish_failure (args : Args) (w : World)
    (ident : CallerIdent) (ks : List KeyMeta) (ds : SecretDesc)
    (ck : CreatedKey) (e : String)
    (hd : args.delete_old = false) (hdr : args.dry_run = false)
    (hs : w.sts = .ok ident) (hl : w.listKeys = .ok ks)
    (hg : (ks.length : Int) < args.max_keys)
    (hds : w.describeSecret = .ok ds)
    (hck : w.createKey = .ok ck)
    (hp : w.putSecret = .error e) :
    (main args w).retCode = some 6 ∧
    (main args w).statusOf = some "FAILED_PUT_SECRET_VALUE" ∧
    (main args w).callsOf.count
      (Call.iamDeleteAccessKey args.user_name ck.accessKeyId) = 1 ∧
    (main args w).evidence.map (fun ev => ev.actions.rollback_delete_new_key) =
      some (some (match w.rollbackDelete with
        | .ok _ => { ok := true, access_key_id := ck.accessKeyId, error := none }
        | .error e2 =>
          { ok := false, access_key_id := ck.accessKeyId, error := some e2 })) := by
  have hng : ¬ ((ks.length : Int) ≥ args.max_keys) := not_le.mpr hg
  simp only [main, hd, Bool.false_eq_true, if_false]
  unfold mainBody
  rw [hs, hl, hds, hck, hp]
  dsimp only
  rw [if_neg hng, hdr]
  rw [if_neg (by simp)]
  cases hrb : w.rollbackDelete with
  | ok u =>
    dsimp only
    refine ⟨rfl, rfl, ?_, rfl⟩
    simp [MainOutcome.callsOf, MainOutcome.trace]
  | error e2 =>
    dsimp only
    refine ⟨rfl, rfl, ?_, rfl⟩
    simp [MainOutcome.callsOf, MainOutcome.trace]

/-- A healthy world except that storing the secret value fails. -/
def worldPutFails : World :=
  { sampleWorldOk with putSecret := .error "AccessDeniedException" }

/-- Witness for C4 at a concrete run whose publication fails. -/
theorem rollback_after_publish_failure_witness :
    (main sampleArgs worldPutFails).retCode = some 6 ∧
    (main sampleArgs worldPutFails).statusOf = some "FAILED_PUT_SECRET_VALUE" ∧
    (main sampleArgs worldPutFails).callsOf.count
      (Call.iamDeleteAccessKey sampleArgs.user_name sampleCreated.accessKeyId) = 1 ∧
    (main sampleArgs worldPutFails).evidence.map
        (fun ev => ev.actions.rollback_delete_new_key) =
      some (some (match worldPutFails.rollbackDelete with
        | .ok _ =>
          { ok := true, access_key_id := sampleCreated.accessKeyId, error := none }
        | .error e2 =>
          { ok := false, access_key_id := sampleCreated.accessKeyId,
            error := some e2 })) :=
  rollback_after_publish_failure sampleArgs worldPutFails sampleIdent [sampleOldKey]
    sampleDesc sampleCreated "AccessDeniedException" rfl rfl rfl rfl (by decide)
    rfl rfl rfl

/-- C5: a dry run that passes identity verification, precheck and the
guardrail issues no mutating collaborator call, records the computed plan
in the evidence precheck, and exits with code 0 and status DRY_RUN_OK. -/
theorem dry_run_no_mutation (args : Args) (w : World)
    (ident : CallerIdent) (ks : List KeyMeta) (ds : SecretDesc)
    (hd : args.delete_old = false) (hdr : args.dry_run = true)
    (hs : w.sts = .ok ident) (hl : w.listKeys = .ok ks)
    (hg : (ks.length : Int) < args.max_keys)
    (hds : w.describeSecret = .ok ds) :
    (main args w).retCode = some 0 ∧
    (main args w).statusOf = some "DRY_RUN_OK" ∧
    (∀ c ∈ (main args w).callsOf, c.isMutating = false) ∧
    (main args w).evidence.map (fun ev => ev.precheck.plan) =
      some (some
        { will_create_new_key := true, will_put_secret_value := true,
          old_key_access_key_id := (pick_old_key ks).map KeyMeta.accessKeyId,
          will_deactivate_old :=
            truthyStr ((pick_old_key ks).map KeyMeta.accessKeyId) &&
              args.deactivate_old,
          will_delete_old :=
            truthyStr ((pick_old_key ks).map KeyMeta.accessKeyId) &&
              args.delete_old }) := by
  have hng : ¬ ((ks.length : Int) ≥ args.max_keys) := not_le.mpr hg
  simp only [main, hd, Bool.false_eq_true, if_false]
  unfold mainBody
  rw [hs, hl, hds]
  dsimp only
  rw [if_neg hng, hdr, if_pos rfl]
  refine ⟨rfl, rfl, ?_, ?_⟩
  · intro c hc
    dsimp only [MainOutcome.callsOf, MainOutcome.trace] at hc
    simp only [List.mem_cons, List.not_mem_nil, or_false] at hc
    rcases hc with rfl | rfl | rfl <;> rfl
  · simp only [MainOutcome.evidence, MainOutcome.evWrites, MainOutcome.trace,
      List.head?_cons, Option.map_some']
    rw [hd]

/-- Dry-run arguments. -/
def argsDry : Args := { sampleArgs with dry_run := true }

/-- Witness for C5 at a concrete healthy dry run. -/
theorem dry_run_no_mutation_witness :
    (main argsDry sampleWorldOk).retCode = some 0 ∧
    (main argsDry sampleWorldOk).statusOf = some "DRY_RUN_OK" ∧
    Call.stsGetCallerIdentity.isMutating = false ∧
    (main argsDry sampleWorldOk).evidence.map (fun ev => ev.precheck.plan) =
      some (some
        { will_create_new_key := true, will_put_secret_value := true,
          old_key_access_key_id := (pick_old_key [sampleOldKey]).map KeyMeta.accessKeyId,
          will_deactivate_old :=
            truthyStr ((pick_old_key [sampleOldKey]).map KeyMeta.accessKeyId) &&
              argsDry.deactivate_old,
          will_delete_old :=
            truthyStr ((pick_old_key [sampleOldKey]).map KeyMeta.accessKeyId) &&
              argsDry.delete_old }) := by
  obtain ⟨a, b, c, d⟩ := dry_run_no_mutation argsDry sampleWorldOk sampleIdent
    [sampleOldKey] sampleDesc rfl rfl rfl rfl (by decide) rfl
  exact ⟨a, b, c Call.stsGetCallerIdentity (by decide), d⟩

/-- C8: once publication has succeeded, a failure of the optional
deactivate-old retirement step is recorded — as a failed action and as an
error entry — but does not change the terminal outcome: the run still ends
with status OK and exit code 0. -/
theorem retirement_failure_nonfatal (args : Args) (w : World)
    (ident : CallerIdent) (ks : List KeyMeta) (ds : SecretDesc)
    (ck : CreatedKey) (pr : PutResp) (e : String)
    (hd : args.delete_old = false) (hdr : args.dry_run = false)
    (hda : args.deactivate_old = true)
    (hs : w.sts = .ok ident) (hl : w.listKeys = .ok ks)
    (hg : (ks.length : Int) < args.max_keys)
    (hds : w.describeSecret = .ok ds)
    (hck : w.createKey = .ok ck)
    (hp : w.putSecret = .ok pr)
    (hu : w.updateOldKey = .error e)
    (hold : truthyStr ((pick_old_key ks).map KeyMeta.accessKeyId) = true) :
    (main args w).retCode = some 0 ∧
    (main args w).statusOf = some "OK" ∧
    (main args w).evidence.map
        (fun ev => ev.actions.iam_update_access_key_inactive) =
      some (some
        { ok := false,
          old_access_key_id := (pick_old_key ks).map KeyMeta.accessKeyId }) ∧
    (main args w).evidence.map (fun ev =>
        ev.errors.contains (ErrEntry.mk "iam.update_access_key(Inactive)" e)) =
      some true := by
  have hng : ¬ ((ks.length : Int) ≥ args.max_keys) := not_le.mpr hg
  simp only [main, hd, Bool.false_eq_true, if_false]
  unfold mainBody
  rw [hs, hl, hds, hck, hp, hu]
  dsimp only
  rw [if_neg hng, hdr]
  rw [if_neg (by simp)]
  rw [hold, hda, hd]
  simp only [Bool.and_self, Bool.and_false, if_pos rfl, Bool.false_eq_true, if_false]
  refine ⟨rfl, rfl, rfl, ?_⟩
  simp
  exact ⟨_, rfl, by simp⟩

/-- Deactivate-old arguments. -/
def argsDeact : Args := { sampleArgs with deactivate_old := true }

/-- A healthy world except that deactivating the old key fails. -/
def worldUpdateFails : World :=
  { sampleWorldOk with updateOldKey := .error "LimitExceeded" }

/-- Witness for C8 at a concrete run whose deactivation step fails. -/
theorem retirement_failure_nonfatal_witness :
    (main argsDeact worldUpdateFails).retCode = some 0 ∧
    (main argsDeact worldUpdateFails).statusOf = some "OK" ∧
    (main argsDeact worldUpdateFails).evidence.map
        (fun ev => ev.actions.iam_update_access_key_inactive) =
      some (some
        { ok := false,
          old_access_key_id := (pick_old_key [sampleOldKey]).map KeyMeta.accessKeyId }) ∧
    (main argsDeact worldUpdateFails).evidence.map (fun ev =>
        ev.errors.contains
          (ErrEntry.mk "iam.update_access_key(Inactive)" "LimitExceeded")) =
      some true :=
  retirement_failure_nonfatal argsDeact worldUpdateFails sampleIdent [sampleOldKey]
    sampleDesc sampleCreated samplePut "LimitExceeded" rfl rfl rfl rfl rfl
    (by decide) rfl rfl rfl rfl (by decide)

/-- C1: the generated SecretAccessKey influences the emitted evidence
record, and the exit code, only through `redacted_tail`: two runs identical
except for the generated secret value produce identical evidence writes and
identical exit codes whenever the redacted tails agree.  Hence on every
terminal path no evidence field carries the raw secret beyond its
redaction: the secret reaches evidence only as its redacted tail. -/
theorem evidence_sees_secret_only_redacted (args : Args) (w : World)
    (s t : String) (h : redacted_tail (some s) = redacted_tail (some t)) :
    (main args (setSecret w s)).evWrites = (main args (setSecret w t)).evWrites ∧
    (main args (setSecret w s)).retCode = (main args (setSecret w t)).retCode := by
  cases hc : w.createKey with
  | error e =>
    have he : setSecret w s = setSecret w t := by
      simp [setSecret, hc]
    rw [he]
    exact ⟨rfl, rfl⟩
  | ok ck =>
    have hes : setSecret w s =
        { w with createKey := .ok { ck with secretAccessKey := s } } := by
      simp [setSecret, hc]
    have het : setSecret w t =
        { w with createKey := .ok { ck with secretAccessKey := t } } := by
      simp [setSecret, hc]
    rw [hes, het]
    by_cases hdel : args.delete_old = true
    · have hn : namespaceLookup args mangledConfirmAttr = none := rfl
      simp [main, hdel, hn]
    · have hd2 : args.delete_old = false := by
        revert hdel
        cases args.delete_old <;> simp
      simp only [main, hd2, Bool.false_eq_true, if_false]
      unfold mainBody
      dsimp only
      cases hsts : w.sts with
      | error e1 => exact ⟨rfl, rfl⟩
      | ok ident =>
        dsimp only
        cases hlk : w.listKeys with
        | error e1 => exact ⟨rfl, rfl⟩
        | ok ks =>
          dsimp only
          by_cases hg : (ks.length : Int) ≥ args.max_keys
          · rw [if_pos hg, if_pos hg]
            exact ⟨rfl, rfl⟩
          · rw [if_neg hg, if_neg hg]
            cases hdsc : w.describeSecret with
            | error e1 => exact ⟨rfl, rfl⟩
            | ok ds =>
              dsimp only
              by_cases hdry : args.dry_run = true
              · rw [if_pos hdry, if_pos hdry]
                exact ⟨rfl, rfl⟩
              · rw [if_neg hdry, if_neg hdry]
                cases hput : w.putSecret with
                | error e1 =>
                  dsimp only
                  cases hrb : w.rollbackDelete with
                  | ok u => rw [h]; exact ⟨rfl, rfl⟩
                  | error e2 => rw [h]; exact ⟨rfl, rfl⟩
                | ok pr =>
                  dsimp only
                  cases hup : w.updateOldKey with
                  | ok u =>
                    cases hdo : w.deleteOldKey with
                    | ok u2 => rw [h]; exact ⟨rfl, rfl⟩
                    | error e3 => rw [h]; exact ⟨rfl, rfl⟩
                  | error e2 =>
                    cases hdo : w.deleteOldKey with
                    | ok u2 => rw [h]; exact ⟨rfl, rfl⟩
                    | error e3 => rw [h]; exact ⟨rfl, rfl⟩

/-- Witness for C1: two concrete secrets agreeing on their last four
characters produce identical evidence writes and exit codes. -/
theorem evidence_sees_secret_only_redacted_witness :
    redacted_tail (some "AAAAAGOOD") = redacted_tail (some "BBBBBGOOD") ∧
    ((main sampleArgs (setSecret sampleWorldOk "AAAAAGOOD")).evWrites =
      (main sampleArgs (setSecret sampleWorldOk "BBBBBGOOD")).evWrites ∧
    (main sampleArgs (setSecret sampleWorldOk "AAAAAGOOD")).retCode =
      (main sampleArgs (setSecret sampleWorldOk "BBBBBGOOD")).retCode) :=
  ⟨rfl, evidence_sees_secret_only_redacted sampleArgs sampleWorldOk
    "AAAAAGOOD" "BBBBBGOOD" rfl⟩

end ForceKeyRotation
